import Mathlib

/-!
Shallow embedding of the booking lifecycle, dispatch, trip recording and
realtime fan-out core of `src/main.py` (UISI shuttle tracking service),
together with the SQLite schema of `src/backend/setup_database.py`.

Conventions of the embedding:
* SQLite tables become Lean lists of records, kept in row insertion order
  (the order SQLite scans them for the unordered `LIMIT 1` / `fetchone()`
  queries of the source).
* Primary-key ids and row counters are `Nat`; ISO timestamp strings are an
  opaque `String` parameter `now`, exactly as `datetime.now().isoformat()`
  is produced once per request in the source.
* An HTTP endpoint body becomes a function `DB → args → Except Err DB`
  (plus returned payload where the source returns one).  `HTTPException
  (status_code, detail)` becomes `Err.http status_code detail`.  An SQLite
  uniqueness violation that the source does not catch becomes
  `Err.integrity table column`; since `get_db`'s `finally: conn.close()`
  rolls back the uncommitted transaction, an error result leaves the
  database unchanged, which the `Except` shape makes structural.
* `role` on a user stands for the joined `roles.name` reached through
  `role_id` (every query of the source reads it only through that join).
-/

/-- A row of the `users` table, with `role` standing for the joined
`roles.name` (the source always reads the role through
`JOIN roles r ON u.role_id = r.id`). -/
structure User where
  id : Nat
  role : String
  status : String
  deriving Repr, DecidableEq

/-- A row of the `vehicles` table (columns the core reads/writes). -/
structure Vehicle where
  id : Nat
  plate_number : String
  capacity : Nat
  status : String
  driver_id : Option Nat
  deriving Repr, DecidableEq

/-- A row of the `locations` table (columns the core reads). -/
structure Location where
  id : Nat
  name : String
  status : String
  deriving Repr, DecidableEq

/-- A row of the `bookings` table (columns the core reads/writes);
`status` defaults to `"pending"` per the schema. -/
structure Booking where
  id : Nat
  booking_code : String
  user_id : Nat
  from_location_id : Nat
  to_location_id : Nat
  notes : Option String
  passenger_count : Nat
  created_at : String
  status : String := "pending"
  driver_id : Option Nat := none
  vehicle_id : Option Nat := none
  updated_at : Option String := none
  accepted_at : Option String := none
  started_at : Option String := none
  completed_at : Option String := none
  cancelled_at : Option String := none
  cancellation_reason : Option String := none
  cancelled_by : Option Nat := none
  deriving Repr, DecidableEq

/-- A row of the `trips` table; `status` defaults to `"ongoing"` per the
schema, and `booking_id` carries a UNIQUE constraint. -/
structure Trip where
  id : Nat
  booking_id : Option Nat
  driver_id : Nat
  vehicle_id : Nat
  start_time : String
  end_time : Option String := none
  status : String := "ongoing"
  created_at : String
  deriving Repr, DecidableEq

/-- A row of the `notifications` table (columns `create_booking` writes). -/
structure Notification where
  user_id : Nat
  title : String
  message : String
  ntype : String
  priority : String
  created_at : String
  deriving Repr, DecidableEq

/-- The record store: one list per table (row insertion order), plus the
AUTOINCREMENT counters that produce `cursor.lastrowid`. -/
structure DB where
  users : List User
  vehicles : List Vehicle
  locations : List Location
  bookings : List Booking
  trips : List Trip
  notifications : List Notification
  next_booking_id : Nat
  next_trip_id : Nat
  deriving Repr, DecidableEq

/-- Error outcomes: `http code detail` is `raise HTTPException(code, detail)`;
`integrity table column` is an sqlite3 `IntegrityError` (UNIQUE violation)
that the source leaves uncaught. -/
inductive Err where
  | http (status_code : Nat) (detail : String)
  | integrity (table : String) (column : String)
  deriving Repr, DecidableEq

/-- Payload returned by POST `/api/bookings`: `(booking_id, booking_code,
status)` of the response dict. -/
structure CreateResult where
  booking_id : Nat
  booking_code : String
  status : String
  deriving Repr, DecidableEq

/-- `SELECT id FROM locations WHERE id IN (?, ?) AND status = 'active'`:
the rows matching the two-id filter. -/
def activeLocationRows (db : DB) (fromId toId : Nat) : List Location :=
  db.locations.filter fun l =>
    (l.id == fromId || l.id == toId) && l.status == "active"

/-- The auto-assign query of `create_booking`:
`SELECT u.id, u.name, v.id as vehicle_id FROM users u
 JOIN vehicles v ON v.driver_id = u.id JOIN roles r ON u.role_id = r.id
 WHERE r.name = 'driver' AND u.status = 'active' AND v.status = 'available'
 LIMIT 1` — the first (driver, vehicle) pair in scan order. -/
def findAvailablePair (db : DB) : Option (Nat × Nat) :=
  (db.users.filter fun u => u.role == "driver" && u.status == "active").findSome?
    fun u =>
      (db.vehicles.find? fun v =>
          v.driver_id == some u.id && v.status == "available").map
        fun v => (u.id, v.id)

/-- The row `INSERT INTO bookings (...)` writes: only the listed columns,
`status` left to its schema default `pending`. -/
def newBookingRow (booking_id user_id from_location_id to_location_id : Nat)
    (notes : Option String) (passenger_count : Nat)
    (booking_code now : String) : Booking :=
  { id := booking_id, booking_code := booking_code, user_id := user_id
    from_location_id := from_location_id, to_location_id := to_location_id
    notes := notes, passenger_count := passenger_count, created_at := now }

/-- POST `/api/bookings` (`create_booking`, src/main.py lines 373–439),
acting as the authenticated rider `user_id` (role `pengguna` already
checked by the dependency).  `booking_code` is the single code the source
generates with `secrets.token_hex`; the UNIQUE constraint on
`bookings.booking_code` fires on collision and the source does not catch
it — no retry happens. -/
def create_booking (db : DB) (user_id : Nat)
    (from_location_id to_location_id : Nat) (notes : Option String)
    (passenger_count : Nat) (booking_code : String) (now : String) :
    Except Err (DB × CreateResult) := do
  if (activeLocationRows db from_location_id to_location_id).length ≠ 2 then
    throw (.http 404 "Invalid or inactive location")
  if db.bookings.any (fun b => b.booking_code == booking_code) then
    throw (.integrity "bookings" "booking_code")
  let booking_id := db.next_booking_id
  let b : Booking := newBookingRow booking_id user_id from_location_id
    to_location_id notes passenger_count booking_code now
  let db := { db with bookings := db.bookings ++ [b]
                      next_booking_id := db.next_booking_id + 1 }
  match findAvailablePair db with
  | some (driver_id, vehicle_id) =>
      let db := { db with
        bookings := db.bookings.map fun b =>
          if b.id == booking_id then
            { b with driver_id := some driver_id, vehicle_id := some vehicle_id
                     status := "accepted", accepted_at := some now }
          else b
        notifications := db.notifications ++
          [{ user_id := driver_id, title := "Booking Baru"
             message := "Booking baru #" ++ booking_code, ntype := "booking"
             priority := "high", created_at := now }] }
      return (db, { booking_id := booking_id, booking_code := booking_code
                    status := "accepted" })
  | none =>
      return (db, { booking_id := booking_id, booking_code := booking_code
                    status := "pending" })

/-- PUT `/api/bookings/{booking_id}/cancel` (`cancel_booking`, src/main.py
lines 460–487), acting as the authenticated rider `user_id`. -/
def cancel_booking (db : DB) (booking_id user_id : Nat) (now : String) :
    Except Err DB := do
  match db.bookings.find? (fun b => b.id == booking_id && b.user_id == user_id) with
  | none => throw (.http 404 "Booking not found")
  | some booking =>
      if booking.status ≠ "pending" && booking.status ≠ "accepted" then
        throw (.http 400 ("Cannot cancel booking with status: " ++ booking.status))
      return { db with bookings := db.bookings.map fun b =>
        if b.id == booking_id then
          { b with status := "cancelled", cancelled_at := some now
                   cancelled_by := some user_id
                   cancellation_reason := some "Cancelled by user" }
        else b }

/-- PUT `/api/driver/bookings/{booking_id}/status` (`update_booking_status`,
src/main.py lines 883–931), acting as the authenticated driver `user_id`
(role `driver` already checked by the dependency).  The `trips` insert on
the `ongoing` branch is guarded by the schema's UNIQUE constraint on
`trips.booking_id`. -/
def update_booking_status (db : DB) (booking_id : Nat) (status : String)
    (user_id : Nat) (now : String) : Except Err DB := do
  match db.bookings.find?
      (fun b => b.id == booking_id && b.driver_id == some user_id) with
  | none => throw (.http 404 "Booking not found or not assigned to you")
  | some _booking =>
      if status == "driver_arriving" then
        return { db with bookings := db.bookings.map fun b =>
          if b.id == booking_id then
            { b with status := "driver_arriving", updated_at := some now }
          else b }
      else if status == "ongoing" then
        let db : DB := { db with bookings := db.bookings.map fun b =>
          if b.id == booking_id then
            { b with status := "ongoing", started_at := some now
                     updated_at := some now }
          else b }
        match db.vehicles.find? (fun v => v.driver_id == some user_id) with
        | some vehicle =>
            if db.trips.any (fun t => t.booking_id == some booking_id) then
              throw (.integrity "trips" "booking_id")
            return { db with
              trips := db.trips ++
                [{ id := db.next_trip_id, booking_id := some booking_id
                   driver_id := user_id, vehicle_id := vehicle.id
                   start_time := now, created_at := now }]
              next_trip_id := db.next_trip_id + 1 }
        | none => return db
      else if status == "completed" then
        return { db with
          bookings := db.bookings.map fun b =>
            if b.id == booking_id then
              { b with status := "completed", completed_at := some now
                       updated_at := some now }
            else b
          trips := db.trips.map fun t =>
            if t.booking_id == some booking_id && t.driver_id == user_id then
              { t with end_time := some now, status := "completed" }
            else t }
      else
        throw (.http 400 ("Invalid status: " ++ status))

/-- Invariant I1 of the spec for one booking row: driver/vehicle references
are non-null iff the status is in
`{accepted, driver_arriving, ongoing, completed}`. -/
def bookingI1 (b : Booking) : Prop :=
  (b.driver_id ≠ none ∧ b.vehicle_id ≠ none) ↔
    b.status ∈ ["accepted", "driver_arriving", "ongoing", "completed"]

/-- Decidability of the I1 check, so it can be evaluated on concrete
stores. -/
instance (b : Booking) : Decidable (bookingI1 b) := by
  unfold bookingI1
  infer_instance

/-- The trips of `db` whose `driver_id` is `d` and status is `"ongoing"`
(invariant I3 requires there to be at most one). -/
def ongoingTripsOf (db : DB) (d : Nat) : List Trip :=
  db.trips.filter fun t => t.driver_id == d && t.status == "ongoing"

/-! ### Realtime fan-out hub (`ConnectionManager`, src/main.py lines 173–208)

A live WebSocket object becomes an abstract connection handle (`Nat`).
`active_connections` is the Python list (append order, may hold
duplicates); `driver_connections` is the Python dict as an association
list with unique keys maintained by `dictSet`.  Whether
`connection.send_json(message)` raises on a given connection during a
fan-out pass is abstracted into a predicate `sendOk : Nat → Bool`. -/

/-- Python dict assignment `d[k] = v` on an association list: replace the
value at `k` if the key is present, else append the binding. -/
def dictSet (k v : Nat) (l : List (Nat × Nat)) : List (Nat × Nat) :=
  if l.any (fun p => p.1 == k) then
    l.map fun p => if p.1 == k then (k, v) else p
  else l ++ [(k, v)]

/-- State of the `ConnectionManager` singleton. -/
structure ConnectionManager where
  active_connections : List Nat
  driver_connections : List (Nat × Nat)
  deriving Repr, DecidableEq

namespace ConnectionManager

/-- `connect(websocket, user_id=None, role=None)`: append to the broadcast
list; if `role == "driver" and user_id` (Python truthiness: `0`/`None` are
falsy) also index the connection by driver id. -/
def connect (m : ConnectionManager) (ws : Nat) (user_id : Option Nat)
    (role : Option String) : ConnectionManager :=
  let m : ConnectionManager :=
    { m with active_connections := m.active_connections ++ [ws] }
  match user_id with
  | some uid =>
      if role == some "driver" && uid ≠ 0 then
        { m with driver_connections := dictSet uid ws m.driver_connections }
      else m
  | none => m

/-- `disconnect(websocket)`: remove the first list occurrence (Python
`list.remove`) and delete every dict entry holding this connection. -/
def disconnect (m : ConnectionManager) (ws : Nat) : ConnectionManager :=
  { active_connections := m.active_connections.erase ws
    driver_connections := m.driver_connections.filter fun p => p.2 ≠ ws }

/-- `broadcast(message)`: try to send to every connection in a snapshot of
`active_connections`; connections whose send raised are collected and
disconnected after the pass.  Returns the list of connections the message
was delivered to, and the manager state after the pass. -/
def broadcast (m : ConnectionManager) (sendOk : Nat → Bool) :
    List Nat × ConnectionManager :=
  let snapshot := m.active_connections
  let delivered := snapshot.filter sendOk
  let dead_connections := snapshot.filter fun c => ¬ sendOk c
  (delivered, dead_connections.foldl (fun m c => m.disconnect c) m)

/-- `send_to_driver(driver_id, message)`: look the driver up in the index
and try the send, ignoring errors; the message reaches at most that one
connection and is dropped when the driver has no connection.  Returns the
connection the message was delivered to, if any. -/
def send_to_driver (m : ConnectionManager) (driver_id : Nat)
    (sendOk : Nat → Bool) : Option Nat :=
  match m.driver_connections.lookup driver_id with
  | some ws => if sendOk ws then some ws else none
  | none => none

end ConnectionManager

/-- An eligible (driver, vehicle) pair in the sense of the Fleet Registry:
an active user with role `driver` owning (via `vehicles.driver_id`) a
vehicle whose status is `available`. -/
def eligiblePair (db : DB) (d v : Nat) : Prop :=
  (∃ u ∈ db.users, u.id = d ∧ u.role = "driver" ∧ u.status = "active") ∧
  (∃ veh ∈ db.vehicles, veh.id = v ∧ veh.driver_id = some d ∧
      veh.status = "available")

/-! ### Concrete fixtures

A small record store in the shape seeded by
`src/backend/setup_database.py`: a rider, two active drivers, one
available vehicle owned by driver 2, and two active locations. -/

/-- Base fixture: rider 1, drivers 2 and 3, vehicle 10 assigned to
driver 2 and available, locations 1 and 2 active, no bookings yet. -/
def exampleDB : DB :=
  { users := [⟨1, "pengguna", "active"⟩, ⟨2, "driver", "active"⟩,
              ⟨3, "driver", "active"⟩],
    vehicles := [⟨10, "L 1234 AB", 14, "available", some 2⟩],
    locations := [⟨1, "Pos P13", "active"⟩, ⟨2, "PPS", "active"⟩],
    bookings := [], trips := [], notifications := [],
    next_booking_id := 1, next_trip_id := 1 }

/-- A booking of rider 1 from location 1 to location 2 (fields as
`create_booking` inserts them). -/
def exampleBooking : Booking :=
  { id := 5, booking_code := "SHU5", user_id := 1, from_location_id := 1,
    to_location_id := 2, notes := none, passenger_count := 1,
    created_at := "t0" }

/-- Fixture whose only booking is completed, still referencing driver 2 and
vehicle 10 (as the source leaves them at completion). -/
def completedDB : DB :=
  { exampleDB with
    bookings := [{ exampleBooking with
                     status := "completed", driver_id := some 2
                     vehicle_id := some 10 }],
    next_booking_id := 6 }

/-- Fixture whose only booking is accepted with driver 2 / vehicle 10. -/
def acceptedDB : DB :=
  { exampleDB with
    bookings := [{ exampleBooking with
                     status := "accepted", driver_id := some 2
                     vehicle_id := some 10 }],
    next_booking_id := 6 }

/-- Fixture where driver 2 already has an ongoing trip for booking 5 and a
second booking 6 sits at `driver_arriving`. -/
def twoBookingDB : DB :=
  { exampleDB with
    bookings := [{ exampleBooking with
                     status := "ongoing", driver_id := some 2
                     vehicle_id := some 10 },
                 { exampleBooking with
                     id := 6, booking_code := "SHU6", status := "driver_arriving"
                     driver_id := some 2, vehicle_id := some 10 }],
    trips := [{ id := 1, booking_id := some 5, driver_id := 2,
                vehicle_id := 10, start_time := "t0", created_at := "t0" }],
    next_booking_id := 7, next_trip_id := 2 }

/-- A concrete hub state: connections 7 and 8 subscribed, driver 2 on
connection 7 and driver 3 on connection 8. -/
def exampleManager : ConnectionManager :=
  { active_connections := [7, 8], driver_connections := [(2, 7), (3, 8)] }

/-! ### Helper lemmas -/

/-- `find?` commutes with mapping a row transformation that the search
predicate cannot distinguish (a SQL UPDATE that touches no column the
WHERE clause reads). -/
theorem find?_map_of_pred_eq {α : Type} (l : List α) (f : α → α) (p : α → Bool)
    (h : ∀ x, p (f x) = p x) : (l.map f).find? p = (l.find? p).map f := by
  rw [List.find?_map]
  have hpf : p ∘ f = p := funext h
  rw [hpf]

/-- A duplicate-free list all of whose elements are equal has at most one
element. -/
theorem nodup_all_eq_length_le_one {β : Type} {m : List β} {c : β}
    (hn : m.Nodup) (h : ∀ x ∈ m, x = c) : m.length ≤ 1 := by
  match m with
  | [] => simp
  | [a] => simp
  | a :: b :: t =>
      exfalso
      have ha := h a (by simp)
      have hb := h b (by simp)
      rw [List.nodup_cons] at hn
      exact hn.1 (by simp [ha, hb])

/-- Rows matching a filter that pins the primary key to one value number at
most one, when the key column is duplicate-free. -/
theorem length_filter_le_one_of_key {α β : Type} {l : List α} {f : α → β}
    {c : β} (hn : (l.map f).Nodup) (p : α → Bool)
    (hp : ∀ x, p x = true → f x = c) : (l.filter p).length ≤ 1 := by
  have hsub : ((l.filter p).map f).Sublist (l.map f) :=
    (List.filter_sublist l).map f
  have hnd : ((l.filter p).map f).Nodup := hn.sublist hsub
  have hall : ∀ x ∈ (l.filter p).map f, x = c := by
    intro x hx
    rcases List.mem_map.mp hx with ⟨y, hy, rfl⟩
    exact hp y (List.mem_filter.mp hy).2
  have := nodup_all_eq_length_le_one hnd hall
  simpa using this

/-! ### Claims -/

/-- C10: `create_booking` with `from_location_id = to_location_id = L`
always fails with the invalid-or-inactive-location error: the two-id
existence query over the pair `{L, L}` can match at most one row because
location ids are unique, so its row count is never 2. -/
theorem C10_same_location_rejected (db : DB) (user_id L : Nat)
    (notes : Option String) (passenger_count : Nat) (booking_code now : String)
    (hnodup : (db.locations.map Location.id).Nodup) :
    create_booking db user_id L L notes passenger_count booking_code now =
      .error (.http 404 "Invalid or inactive location") := by
  have hle : (activeLocationRows db L L).length ≤ 1 := by
    apply length_filter_le_one_of_key hnodup
    intro x hx
    have : (x.id == L || x.id == L) = true := (Bool.and_eq_true _ _ |>.mp hx).1
    simpa using this
  have hcond : (activeLocationRows db L L).length ≠ 2 := by omega
  unfold create_booking
  rw [if_pos hcond]
  rfl

/-- Witness for C10 at a concrete store: both ids name the active
location 1 of `exampleDB`, yet creation fails. -/
theorem C10_witness :
    create_booking exampleDB 1 1 1 none 1 "SHU1" "t0" =
      .error (.http 404 "Invalid or inactive location") :=
  C10_same_location_rejected exampleDB 1 1 none 1 "SHU1" "t0" (by decide)

/-- C5: full characterization of `cancel_booking`.  It succeeds exactly
when the acting rider owns the booking and its status is `pending` or
`accepted`, recording the cancellation reason, actor and timestamp; on an
owned booking in any other status (e.g. `completed`) it fails with the
HTTP 400 invalid-transition error, and when no booking of the rider
matches it fails with 404; error results leave the store unchanged. -/
theorem C5_cancel_characterization (db : DB) (booking_id user_id : Nat)
    (now : String) :
    (∀ b, db.bookings.find?
        (fun x => x.id == booking_id && x.user_id == user_id) = some b →
      ((b.status = "pending" ∨ b.status = "accepted") →
          cancel_booking db booking_id user_id now =
            .ok { db with bookings := db.bookings.map fun x =>
                    if x.id == booking_id then
                      { x with status := "cancelled", cancelled_at := some now
                               cancelled_by := some user_id
                               cancellation_reason := some "Cancelled by user" }
                    else x }) ∧
        (b.status ≠ "pending" → b.status ≠ "accepted" →
          cancel_booking db booking_id user_id now =
            .error (.http 400 ("Cannot cancel booking with status: " ++ b.status)))) ∧
    (db.bookings.find?
        (fun x => x.id == booking_id && x.user_id == user_id) = none →
      cancel_booking db booking_id user_id now =
        .error (.http 404 "Booking not found")) := by
  constructor
  · intro b hb
    constructor
    · intro hst
      rcases hst with h | h <;> simp [cancel_booking, hb, h] <;> rfl
    · intro h1 h2
      simp [cancel_booking, hb, h1, h2]
      rfl
  · intro hn
    simp [cancel_booking, hn]
    rfl

/-- Witness for C5: cancelling the completed booking of `completedDB`
fails with the invalid-transition error. -/
theorem C5_witness :
    cancel_booking completedDB 5 1 "t1" =
      .error (.http 400 "Cannot cancel booking with status: completed") := by
  have h := (C5_cancel_characterization completedDB 5 1 "t1").1
    { exampleBooking with
        status := "completed", driver_id := some 2
        vehicle_id := some 10 } (by decide)
  exact h.2 (by decide) (by decide)

/-- C6 counterexample: the generated code `"SHU5"` collides with the
existing booking of `completedDB`; instead of one retry with a fresh code,
`create_booking` surfaces the raw storage uniqueness error (an uncaught
`sqlite3.IntegrityError`), and no booking is created. -/
theorem C6_counterexample :
    create_booking completedDB 1 1 2 none 1 "SHU5" "t1" =
      .error (.integrity "bookings" "booking_code") := by rfl

/-- C6 as amended: on a booking-code collision `create_booking` performs
no retry at all — the insert fails with the uncaught storage uniqueness
error and no booking is created (the source never catches
`IntegrityError` and generates the code exactly once). -/
theorem C6_no_retry (db : DB) (user_id from_id to_id : Nat)
    (notes : Option String) (passenger_count : Nat) (booking_code now : String)
    (hloc : (activeLocationRows db from_id to_id).length = 2)
    (hdup : db.bookings.any (fun b => b.booking_code == booking_code) = true) :
    create_booking db user_id from_id to_id notes passenger_count
        booking_code now =
      .error (.integrity "bookings" "booking_code") := by
  simp [create_booking, hloc, hdup]
  rfl

/-- Witness for C6: the concrete collision of `C6_counterexample`
discharged through the general theorem. -/
theorem C6_witness :
    create_booking completedDB 1 1 2 none 1 "SHU5" "t1" =
      .error (.integrity "bookings" "booking_code") :=
  C6_no_retry completedDB 1 1 2 none 1 "SHU5" "t1" (by decide) (by decide)

/-- C7 counterexample: driver 3 (an active driver of `completedDB`)
attempts a transition on booking 5, which is assigned to driver 2.  The
request fails — but with the HTTP 404 not-found error, not the 403
`Forbidden` the claim names. -/
theorem C7_counterexample :
    update_booking_status completedDB 5 "ongoing" 3 "t1" =
      .error (.http 404 "Booking not found or not assigned to you") := by rfl

/-- C7 as amended: a transition request by any actor who is not the
booking's assigned driver fails with the HTTP 404 error
`"Booking not found or not assigned to you"` (the ownership check is the
`WHERE id = ? AND driver_id = ?` lookup, so identity is checked against
`booking.driver_id`, but the failure is reported as not-found rather than
`Forbidden`/403) and the store is unchanged. -/
theorem C7_wrong_driver_404 (db : DB) (booking_id actor : Nat)
    (status now : String)
    (h : ∀ b ∈ db.bookings, b.id = booking_id → b.driver_id ≠ some actor) :
    update_booking_status db booking_id status actor now =
      .error (.http 404 "Booking not found or not assigned to you") := by
  have hfind : db.bookings.find?
      (fun b => b.id == booking_id && b.driver_id == some actor) = none := by
    rw [List.find?_eq_none]
    intro x hx
    simp only [Bool.and_eq_true, beq_iff_eq, not_and]
    exact fun hid hdr => h x hx hid hdr
  simp [update_booking_status, hfind]
  rfl

/-- Witness for C7: the concrete cross-driver attempt of
`C7_counterexample` discharged through the general theorem. -/
theorem C7_witness :
    update_booking_status completedDB 5 "ongoing" 3 "t1" =
      .error (.http 404 "Booking not found or not assigned to you") :=
  C7_wrong_driver_404 completedDB 5 3 "ongoing" "t1" (by decide)

/-- `findAvailablePair` reads only `users`/`vehicles`: inserting a booking
(or advancing the id counter) within the same transaction cannot change
the dispatch answer. -/
theorem findAvailablePair_ignores_bookings (db : DB) (bs : List Booking)
    (n : Nat) :
    findAvailablePair { db with bookings := bs, next_booking_id := n } =
      findAvailablePair db := rfl

/-- C1 counterexample: booking 5 of `completedDB` is `completed`, and
`completed → driver_arriving` is not in the transition table; yet the
assigned driver's request succeeds and rewrites the status (the source
never inspects the current status before writing the new one). -/
theorem C1_counterexample :
    (update_booking_status completedDB 5 "driver_arriving" 2 "t1").map
        (fun db => db.bookings.map fun b => b.status) =
      .ok ["driver_arriving"] := by rfl

/-- C1 as amended: `update_booking_status` validates only the target
status, never the source status.  A target outside
`{driver_arriving, ongoing, completed}` fails with the HTTP 400
invalid-status error (leaving the store unchanged), but whenever the
booking is found for the acting driver, target `driver_arriving` succeeds
and overwrites the status whatever the source state was — so transitions
like `completed → driver_arriving` are accepted. -/
theorem C1_only_target_checked (db : DB) (booking_id user_id : Nat)
    (status now : String) (b : Booking)
    (hb : db.bookings.find?
      (fun x => x.id == booking_id && x.driver_id == some user_id) = some b)
    (h1 : status ≠ "driver_arriving") (h2 : status ≠ "ongoing")
    (h3 : status ≠ "completed") :
    update_booking_status db booking_id status user_id now =
      .error (.http 400 ("Invalid status: " ++ status)) ∧
    ∀ t, ∃ db',
      update_booking_status db booking_id "driver_arriving" user_id t =
          .ok db' ∧
        ∀ b' ∈ db'.bookings, b'.id = booking_id →
          b'.status = "driver_arriving" := by
  constructor
  · simp [update_booking_status, hb, h1, h2, h3]
    rfl
  · intro t
    refine ⟨{ db with bookings := db.bookings.map fun x =>
        if x.id == booking_id then
          { x with status := "driver_arriving", updated_at := some t }
        else x }, ?_, ?_⟩
    · simp [update_booking_status, hb]
      rfl
    · intro b' hb' hid
      rcases List.mem_map.mp hb' with ⟨x, hx, rfl⟩
      by_cases hxid : (x.id == booking_id) = true
      · simp [hxid]
      · simp only [hxid, Bool.false_eq_true, if_false] at hid ⊢
        exact absurd (by simpa using hid) (by simpa using hxid)

/-- Witness for C1: at `completedDB`, driver 2 requesting the unrecognized
target `"foo"` on booking 5 gets the invalid-status error. -/
theorem C1_witness :
    update_booking_status completedDB 5 "foo" 2 "t1" =
      .error (.http 400 "Invalid status: foo") :=
  (C1_only_target_checked completedDB 5 2 "foo" "t1"
    { exampleBooking with
        status := "completed", driver_id := some 2
        vehicle_id := some 10 }
    (by rfl) (by decide) (by decide) (by decide)).1

/-- C2 counterexample: in `twoBookingDB` driver 2 already has an ongoing
trip (for booking 5); their request to drive booking 6 into `ongoing`
succeeds and opens a second trip, leaving driver 2 with two `ongoing`
trips — no conflict is surfaced. -/
theorem C2_counterexample :
    (update_booking_status twoBookingDB 6 "ongoing" 2 "t1").map
        (fun db => (ongoingTripsOf db 2).length) = .ok 2 := by rfl

/-- C2 as amended: the `ongoing` branch never checks invariant I3.  When
the booking is found for the acting driver, the driver has a vehicle row,
and the booking itself has no prior trip (the only guard, the UNIQUE
constraint on `trips.booking_id`), a fresh `ongoing` trip is appended
unconditionally — growing the driver's set of ongoing trips by one even
if one is already open. -/
theorem C2_no_conflict_check (db : DB) (booking_id user_id : Nat)
    (now : String) (b : Booking) (v : Vehicle)
    (hb : db.bookings.find?
      (fun x => x.id == booking_id && x.driver_id == some user_id) = some b)
    (hv : db.vehicles.find? (fun x => x.driver_id == some user_id) = some v)
    (ht : db.trips.any (fun t => t.booking_id == some booking_id) = false) :
    ∃ db', update_booking_status db booking_id "ongoing" user_id now =
        .ok db' ∧
      db'.trips = db.trips ++
        [{ id := db.next_trip_id, booking_id := some booking_id
           driver_id := user_id, vehicle_id := v.id, start_time := now
           end_time := none, status := "ongoing", created_at := now }] ∧
      (ongoingTripsOf db' user_id).length =
        (ongoingTripsOf db user_id).length + 1 := by
  refine ⟨{ db with
      bookings := db.bookings.map fun x =>
        if x.id == booking_id then
          { x with status := "ongoing", started_at := some now
                   updated_at := some now }
        else x
      trips := db.trips ++
        [{ id := db.next_trip_id, booking_id := some booking_id
           driver_id := user_id, vehicle_id := v.id, start_time := now
           created_at := now }]
      next_trip_id := db.next_trip_id + 1 }, ?_, by simp, ?_⟩
  · simp [update_booking_status, hb, hv, ht]
    rfl
  · simp [ongoingTripsOf, List.filter_append]

/-- Witness for C2: the concrete second-trip scenario of `twoBookingDB`
run through the amended theorem. -/
theorem C2_witness :
    ∃ db', update_booking_status twoBookingDB 6 "ongoing" 2 "t1" =
        .ok db' ∧
      db'.trips = twoBookingDB.trips ++
        [{ id := 2, booking_id := some 6, driver_id := 2, vehicle_id := 10
           start_time := "t1", end_time := none, status := "ongoing"
           created_at := "t1" }] ∧
      (ongoingTripsOf db' 2).length =
        (ongoingTripsOf twoBookingDB 2).length + 1 :=
  C2_no_conflict_check twoBookingDB 6 2 "t1"
    { exampleBooking with
        id := 6, booking_code := "SHU6", status := "driver_arriving"
        driver_id := some 2, vehicle_id := some 10 }
    ⟨10, "L 1234 AB", 14, "available", some 2⟩ (by rfl) (by rfl) (by rfl)

/-- Soundness of the dispatch query: a returned pair is eligible. -/
theorem eligible_of_findAvailablePair {db : DB} {d v : Nat}
    (h : findAvailablePair db = some (d, v)) : eligiblePair db d v := by
  unfold findAvailablePair at h
  rcases List.exists_of_findSome?_eq_some h with ⟨u, hu, hf⟩
  rcases Option.map_eq_some'.mp hf with ⟨veh, hveh, heq⟩
  have hu' := List.mem_filter.mp hu
  have hpu := hu'.2
  have hv1 := List.find?_some hveh
  have hvm := List.mem_of_find?_eq_some hveh
  simp only [Bool.and_eq_true, beq_iff_eq] at hpu hv1
  obtain ⟨hd, hvid⟩ : u.id = d ∧ veh.id = v := by
    simpa [Prod.ext_iff] using heq
  exact ⟨⟨u, hu'.1, hd, hpu.1, hpu.2⟩,
         ⟨veh, hvm, hvid, by rw [← hd]; exact hv1.1, hv1.2⟩⟩

/-- Completeness of the dispatch query: it comes back empty exactly when
no eligible (driver, vehicle) pair exists. -/
theorem findAvailablePair_eq_none_iff {db : DB} :
    findAvailablePair db = none ↔ ∀ d v, ¬ eligiblePair db d v := by
  unfold findAvailablePair
  rw [List.findSome?_eq_none_iff]
  constructor
  · rintro h d v ⟨⟨u, hu, hid, hrole, hstat⟩, ⟨veh, hveh, hvid, hvd, hvs⟩⟩
    have hu' : u ∈ db.users.filter
        (fun u => u.role == "driver" && u.status == "active") :=
      List.mem_filter.mpr ⟨hu, by simp [hrole, hstat]⟩
    have hnone := h u hu'
    rw [Option.map_eq_none', List.find?_eq_none] at hnone
    exact hnone veh hveh (by simp [hvd, hid, hvs])
  · intro h u hu
    rw [Option.map_eq_none', List.find?_eq_none]
    intro veh hveh hp
    simp only [Bool.and_eq_true, beq_iff_eq] at hp
    have hu' := List.mem_filter.mp hu
    simp only [Bool.and_eq_true, beq_iff_eq] at hu'
    exact h u.id veh.id
      ⟨⟨u, hu'.1, rfl, hu'.2.1, hu'.2.2⟩, ⟨veh, hveh, rfl, hp.1, hp.2⟩⟩

/-- C3 counterexample: in `exampleDB` an eligible pair (driver 2, vehicle
10) exists, and creation does end `accepted` — but the vehicle's status is
left `"available"`, not set to `"in_use"`: `create_booking` never writes
the `vehicles` table. -/
theorem C3_counterexample :
    (create_booking exampleDB 1 1 2 none 1 "SHU1" "t0").map
        (fun r => (r.2.status, r.1.vehicles.map Vehicle.status)) =
      .ok ("accepted", ["available"]) := by rfl

/-- C3 as amended: with both locations active and a fresh code, if an
eligible pair exists the dispatch query returns one and the new booking is
`accepted` with that driver and vehicle assigned and a notification row
enqueued for that driver — but the `vehicles` table is left untouched (the
vehicle is *not* marked `in_use`); if no eligible pair exists the booking
is left `pending` and nothing else (no notification, no retry) happens. -/
theorem C3_dispatch_on_create (db : DB) (user_id from_id to_id : Nat)
    (notes : Option String) (passenger_count : Nat) (code now : String)
    (hloc : (activeLocationRows db from_id to_id).length = 2)
    (hcode : db.bookings.any (fun b => b.booking_code == code) = false)
    (hfresh : ∀ b ∈ db.bookings, b.id ≠ db.next_booking_id) :
    ((∃ d v, eligiblePair db d v) →
      ∃ d v db', findAvailablePair db = some (d, v) ∧ eligiblePair db d v ∧
        create_booking db user_id from_id to_id notes passenger_count code now
          = .ok (db', ⟨db.next_booking_id, code, "accepted"⟩) ∧
        db'.bookings = db.bookings ++
          [{ newBookingRow db.next_booking_id user_id from_id to_id notes
               passenger_count code now with
             status := "accepted", driver_id := some d, vehicle_id := some v
             accepted_at := some now }] ∧
        db'.notifications = db.notifications ++
          [{ user_id := d, title := "Booking Baru"
             message := "Booking baru #" ++ code, ntype := "booking"
             priority := "high", created_at := now }] ∧
        db'.vehicles = db.vehicles) ∧
    ((∀ d v, ¬ eligiblePair db d v) →
      ∃ db', create_booking db user_id from_id to_id notes passenger_count
          code now = .ok (db', ⟨db.next_booking_id, code, "pending"⟩) ∧
        db'.bookings = db.bookings ++
          [newBookingRow db.next_booking_id user_id from_id to_id notes
            passenger_count code now] ∧
        db'.notifications = db.notifications ∧
        db'.vehicles = db.vehicles) := by
  constructor
  · rintro ⟨d₀, v₀, helig⟩
    rcases hfp : findAvailablePair db with _ | ⟨d, v⟩
    · exact absurd helig (findAvailablePair_eq_none_iff.mp hfp d₀ v₀)
    · refine ⟨d, v, { db with
          bookings := (db.bookings ++
            [newBookingRow db.next_booking_id user_id from_id to_id notes
              passenger_count code now]).map fun x =>
              if x.id == db.next_booking_id then
                { x with driver_id := some d, vehicle_id := some v
                         status := "accepted", accepted_at := some now }
              else x
          notifications := db.notifications ++
            [{ user_id := d, title := "Booking Baru"
               message := "Booking baru #" ++ code, ntype := "booking"
               priority := "high", created_at := now }]
          next_booking_id := db.next_booking_id + 1 },
        rfl, eligible_of_findAvailablePair hfp, ?_, ?_, rfl, rfl⟩
      · simp only [create_booking, hloc, hcode]
        rw [findAvailablePair_ignores_bookings, hfp]
        rfl
      · have hid : ∀ a ∈ db.bookings,
            (if a.id == db.next_booking_id then
              { a with driver_id := some d, vehicle_id := some v
                       status := "accepted", accepted_at := some now }
            else a) = a := by
          intro a ha
          simp [beq_eq_false_iff_ne.mpr (hfresh a ha)]
        have h1 : db.bookings.map (fun a =>
            if a.id == db.next_booking_id then
              { a with driver_id := some d, vehicle_id := some v
                       status := "accepted", accepted_at := some now }
            else a) = db.bookings := by
          rw [List.map_congr_left hid]
          simp
        have hcond : ((newBookingRow db.next_booking_id user_id from_id
            to_id notes passenger_count code now).id ==
              db.next_booking_id) = true := by
          simp [newBookingRow]
        rw [List.map_append, h1]
        simp only [List.map_cons, List.map_nil, hcond, if_true]
  · intro h
    have hfp : findAvailablePair db = none := findAvailablePair_eq_none_iff.mpr h
    refine ⟨{ db with
        bookings := db.bookings ++
          [newBookingRow db.next_booking_id user_id from_id to_id notes
            passenger_count code now]
        next_booking_id := db.next_booking_id + 1 }, ?_, rfl, rfl, rfl⟩
    simp only [create_booking, hloc, hcode]
    rw [findAvailablePair_ignores_bookings, hfp]
    rfl

/-- Witness for C3: the concrete store `exampleDB` (eligible pair: driver
2 with vehicle 10) run through the amended theorem. -/
theorem C3_witness :
    ∃ d v db', findAvailablePair exampleDB = some (d, v) ∧
      eligiblePair exampleDB d v ∧
      create_booking exampleDB 1 1 2 none 1 "SHU1" "t0"
        = .ok (db', ⟨1, "SHU1", "accepted"⟩) ∧
      db'.bookings = exampleDB.bookings ++
        [{ newBookingRow 1 1 1 2 none 1 "SHU1" "t0" with
           status := "accepted", driver_id := some d, vehicle_id := some v
           accepted_at := some "t0" }] ∧
      db'.notifications = exampleDB.notifications ++
        [{ user_id := d, title := "Booking Baru"
           message := "Booking baru #SHU1", ntype := "booking"
           priority := "high", created_at := "t0" }] ∧
      db'.vehicles = exampleDB.vehicles :=
  (C3_dispatch_on_create exampleDB 1 1 2 none 1 "SHU1" "t0"
      (by rfl) (by rfl) (by decide)).1
    ⟨2, 10, ⟨⟨⟨2, "driver", "active"⟩, by decide, rfl, rfl, rfl⟩,
            ⟨⟨10, "L 1234 AB", 14, "available", some 2⟩, by decide, rfl, rfl, rfl⟩⟩⟩

/-- C4 counterexample: cancelling the accepted booking of `acceptedDB`
leaves `driver_id = some 2` and `vehicle_id = some 10` in place on the now
`cancelled` row, so invariant I1 is violated right after the operation. -/
theorem C4_counterexample :
    (cancel_booking acceptedDB 5 1 "t1").map
        (fun db => (db.bookings.map fun b => (b.status, b.driver_id, b.vehicle_id),
                    decide (∀ b ∈ db.bookings, bookingI1 b))) =
      .ok ([("cancelled", some 2, some 10)], false) := by rfl

/-- C4 as amended: `cancel_booking` on an owned `accepted` booking records
the cancellation but leaves `driver_id`/`vehicle_id` untouched, so the
resulting `cancelled` row still carries its non-null driver and vehicle
references and I1 does not hold after the operation. -/
theorem C4_cancel_keeps_driver (db : DB) (booking_id user_id : Nat)
    (now : String) (b : Booking)
    (hb : db.bookings.find?
      (fun x => x.id == booking_id && x.user_id == user_id) = some b)
    (hst : b.status = "accepted") (hdr : b.driver_id ≠ none)
    (hvh : b.vehicle_id ≠ none) :
    ∃ db', cancel_booking db booking_id user_id now = .ok db' ∧
      ∃ b' ∈ db'.bookings, b'.status = "cancelled" ∧
        b'.driver_id = b.driver_id ∧ b'.vehicle_id = b.vehicle_id ∧
        ¬ bookingI1 b' := by
  refine ⟨{ db with bookings := db.bookings.map fun x =>
      if x.id == booking_id then
        { x with status := "cancelled", cancelled_at := some now
                 cancelled_by := some user_id
                 cancellation_reason := some "Cancelled by user" }
      else x }, ?_, ?_⟩
  · simp [cancel_booking, hb, hst]
    rfl
  · have hbm := List.mem_of_find?_eq_some hb
    have hp := List.find?_some hb
    simp only [Bool.and_eq_true, beq_iff_eq] at hp
    refine ⟨{ b with
        status := "cancelled", cancelled_at := some now
        cancelled_by := some user_id
        cancellation_reason := some "Cancelled by user" },
      List.mem_map.mpr ⟨b, hbm, by simp [hp.1]⟩, rfl, rfl, rfl, ?_⟩
    intro hI1
    have hmem : ("cancelled" : String) ∈
        ["accepted", "driver_arriving", "ongoing", "completed"] :=
      hI1.mp ⟨hdr, hvh⟩
    simp at hmem

/-- Witness for C4: the concrete cancellation of `acceptedDB`'s accepted
booking through the amended theorem. -/
theorem C4_witness :
    ∃ db', cancel_booking acceptedDB 5 1 "t1" = .ok db' ∧
      ∃ b' ∈ db'.bookings, b'.status = "cancelled" ∧
        b'.driver_id = some 2 ∧ b'.vehicle_id = some 10 ∧ ¬ bookingI1 b' :=
  C4_cancel_keeps_driver acceptedDB 5 1 "t1"
    { exampleBooking with
        status := "accepted", driver_id := some 2
        vehicle_id := some 10 }
    (by rfl) (by rfl) (by decide) (by decide)

/-- C8: a booking driven by its assigned driver through
`driver_arriving → ongoing → completed` opens a trip at `ongoing` (with
`start_time` the transition time, driver and the driver's vehicle
recorded) and closes that trip at `completed` (`end_time` set, status
`completed`); the booking itself ends `completed`.  Hypotheses: the
booking is found for the acting driver, the driver has a vehicle row, and
the booking has no prior trip (the forward path's normal state). -/
theorem C8_trip_lifecycle (db : DB) (booking_id d : Nat) (t1 t2 t3 : String)
    (b : Booking) (v : Vehicle)
    (hb : db.bookings.find?
      (fun x => x.id == booking_id && x.driver_id == some d) = some b)
    (hv : db.vehicles.find? (fun x => x.driver_id == some d) = some v)
    (ht : db.trips.any (fun t => t.booking_id == some booking_id) = false) :
    ∃ db1 db2 db3,
      update_booking_status db booking_id "driver_arriving" d t1 = .ok db1 ∧
      update_booking_status db1 booking_id "ongoing" d t2 = .ok db2 ∧
      db2.trips = db.trips ++
        [{ id := db.next_trip_id, booking_id := some booking_id
           driver_id := d, vehicle_id := v.id, start_time := t2
           end_time := none, status := "ongoing", created_at := t2 }] ∧
      update_booking_status db2 booking_id "completed" d t3 = .ok db3 ∧
      (∃ tr ∈ db3.trips, tr.booking_id = some booking_id ∧ tr.driver_id = d ∧
        tr.vehicle_id = v.id ∧ tr.start_time = t2 ∧ tr.end_time = some t3 ∧
        tr.status = "completed") ∧
      (∃ b3 ∈ db3.bookings, b3.id = booking_id ∧
        b3.status = "completed") := by
  have hpb := List.find?_some hb
  simp only [Bool.and_eq_true, beq_iff_eq] at hpb
  have hmb := List.mem_of_find?_eq_some hb
  set F1 := fun x : Booking => if x.id == booking_id then
    { x with status := "driver_arriving", updated_at := some t1 } else x
    with hF1
  set F2 := fun x : Booking => if x.id == booking_id then
    { x with status := "ongoing", started_at := some t2
             updated_at := some t2 } else x
    with hF2
  set F3 := fun x : Booking => if x.id == booking_id then
    { x with status := "completed", completed_at := some t3
             updated_at := some t3 } else x
    with hF3
  set G := fun t : Trip => if t.booking_id == some booking_id &&
      t.driver_id == d then
    { t with end_time := some t3, status := "completed" } else t
    with hG
  set trip0 : Trip :=
    { id := db.next_trip_id, booking_id := some booking_id
      driver_id := d, vehicle_id := v.id, start_time := t2, created_at := t2 }
    with htrip0
  have hq1 : ∀ x : Booking, ((F1 x).id == booking_id &&
      (F1 x).driver_id == some d) = (x.id == booking_id &&
      x.driver_id == some d) := by
    intro x
    by_cases h : x.id = booking_id <;> simp [hF1, h]
  have hq2 : ∀ x : Booking, ((F2 x).id == booking_id &&
      (F2 x).driver_id == some d) = (x.id == booking_id &&
      x.driver_id == some d) := by
    intro x
    by_cases h : x.id = booking_id <;> simp [hF2, h]
  have hb1 : (db.bookings.map F1).find?
      (fun x => x.id == booking_id && x.driver_id == some d) =
        some (F1 b) := by
    rw [find?_map_of_pred_eq _ _ _ hq1, hb]
    rfl
  have hb2 : ((db.bookings.map F1).map F2).find?
      (fun x => x.id == booking_id && x.driver_id == some d) =
        some (F2 (F1 b)) := by
    rw [find?_map_of_pred_eq _ _ _ hq2, hb1]
    rfl
  have h1 : update_booking_status db booking_id "driver_arriving" d t1 =
      .ok { db with bookings := db.bookings.map F1 } := by
    simp only [update_booking_status, hb]
    rfl
  have h2 : update_booking_status { db with bookings := db.bookings.map F1 }
      booking_id "ongoing" d t2 =
      .ok { db with
            bookings := (db.bookings.map F1).map F2
            trips := db.trips ++ [trip0]
            next_trip_id := db.next_trip_id + 1 } := by
    simp only [update_booking_status]
    simp only [hb1, hv, ht]
    rfl
  have h3 : update_booking_status
      { db with
        bookings := (db.bookings.map F1).map F2
        trips := db.trips ++ [trip0]
        next_trip_id := db.next_trip_id + 1 }
      booking_id "completed" d t3 =
      .ok { db with
            bookings := ((db.bookings.map F1).map F2).map F3
            trips := (db.trips ++ [trip0]).map G
            next_trip_id := db.next_trip_id + 1 } := by
    simp only [update_booking_status]
    simp only [hb2]
    rfl
  refine ⟨_, _, _, h1, h2, rfl, h3, ?_, ?_⟩
  · refine ⟨{ trip0 with end_time := some t3, status := "completed" },
      ?_, rfl, rfl, rfl, rfl, rfl, rfl⟩
    rw [List.map_append]
    refine List.mem_append_right _ ?_
    have hGt : G trip0 =
        { trip0 with end_time := some t3, status := "completed" } := by
      simp [hG, htrip0]
    simp only [List.map_cons, List.map_nil, hGt]
    exact List.mem_singleton.mpr rfl
  · refine ⟨F3 (F2 (F1 b)), ?_, ?_, ?_⟩
    · exact List.mem_map.mpr ⟨F2 (F1 b),
        List.mem_map.mpr ⟨F1 b, List.mem_map.mpr ⟨b, hmb, rfl⟩, rfl⟩, rfl⟩
    · simp [hF1, hF2, hF3, hpb.1]
    · simp [hF1, hF2, hF3, hpb.1]

/-- Witness for C8: driver 2 drives `acceptedDB`'s booking 5 through
the full forward path; a trip (id 1, vehicle 10) opens at `ongoing` and
closes at `completed`. -/
theorem C8_witness :
    ∃ db1 db2 db3,
      update_booking_status acceptedDB 5 "driver_arriving" 2 "t1" =
        .ok db1 ∧
      update_booking_status db1 5 "ongoing" 2 "t2" = .ok db2 ∧
      db2.trips = acceptedDB.trips ++
        [{ id := 1, booking_id := some 5, driver_id := 2, vehicle_id := 10
           start_time := "t2", end_time := none, status := "ongoing"
           created_at := "t2" }] ∧
      update_booking_status db2 5 "completed" 2 "t3" = .ok db3 ∧
      (∃ tr ∈ db3.trips, tr.booking_id = some 5 ∧ tr.driver_id = 2 ∧
        tr.vehicle_id = 10 ∧ tr.start_time = "t2" ∧ tr.end_time = some "t3" ∧
        tr.status = "completed") ∧
      (∃ b3 ∈ db3.bookings, b3.id = 5 ∧ b3.status = "completed") :=
  C8_trip_lifecycle acceptedDB 5 2 "t1" "t2" "t3"
    { exampleBooking with
        status := "accepted", driver_id := some 2
        vehicle_id := some 10 }
    ⟨10, "L 1234 AB", 14, "available", some 2⟩ (by rfl) (by rfl) (by rfl)

/-- An association-list lookup hit is a member of the list. -/
theorem lookup_mem {l : List (Nat × Nat)} {k v : Nat}
    (h : l.lookup k = some v) : (k, v) ∈ l := by
  induction l with
  | nil => simp [List.lookup] at h
  | cons p ps ih =>
      rcases p with ⟨a, b⟩
      rw [List.lookup_cons] at h
      by_cases hk : (k == a) = true
      · have hka : k = a := by simpa using hk
        have hbv : b = v := by simpa [hk] using h
        subst hka
        subst hbv
        exact List.mem_cons_self _ _
      · simp only [Bool.not_eq_true] at hk
        rw [hk] at h
        exact List.mem_cons_of_mem _ (ih h)

/-- Disconnecting every connection of `dead` removes exactly that many
occurrences of each handle from the broadcast list. -/
theorem disconnect_foldl_active_count (dead : List Nat)
    (m : ConnectionManager) (ws : Nat) :
    ((dead.foldl (fun acc c => acc.disconnect c) m).active_connections).count
        ws = m.active_connections.count ws - dead.count ws := by
  induction dead generalizing m with
  | nil => simp
  | cons c cs ih =>
      rw [List.foldl_cons, ih]
      simp only [ConnectionManager.disconnect]
      rw [List.count_erase, List.count_cons]
      by_cases h : c = ws
      · simp [h]
        omega
      · simp [h]

/-- Disconnecting every connection of `dead` removes from the driver index
exactly the entries holding a dead connection. -/
theorem disconnect_foldl_drivers (dead : List Nat) (m : ConnectionManager) :
    (dead.foldl (fun acc c => acc.disconnect c) m).driver_connections =
      m.driver_connections.filter (fun p => decide (p.2 ∉ dead)) := by
  induction dead generalizing m with
  | nil => simp
  | cons c cs ih =>
      rw [List.foldl_cons, ih]
      simp only [ConnectionManager.disconnect]
      rw [List.filter_filter]
      apply List.filter_congr
      intro x _
      by_cases h1 : x.2 = c <;> by_cases h2 : x.2 ∈ cs <;> simp [h1, h2]

/-- C9: broadcast delivers to every connection of the starting snapshot
whose send succeeds — a send failure on one connection never blocks the
others — and each failed connection is removed from both the broadcast
list and the driver index by the end of the pass; targeted delivery
reaches at most the connection registered for the addressed driver and is
silently dropped when the driver has none. -/
theorem C9_fanout (m : ConnectionManager) (sendOk : Nat → Bool)
    (ws d : Nat) :
    (m.broadcast sendOk).1 = m.active_connections.filter sendOk ∧
    (ws ∈ m.active_connections → sendOk ws = false →
      ws ∉ (m.broadcast sendOk).2.active_connections ∧
      ∀ d', (m.broadcast sendOk).2.driver_connections.lookup d' ≠ some ws) ∧
    (∀ w, m.send_to_driver d sendOk = some w →
      m.driver_connections.lookup d = some w ∧ sendOk w = true) ∧
    (m.driver_connections.lookup d = none →
      m.send_to_driver d sendOk = none) := by
  have hsnd : (m.broadcast sendOk).2 =
      (m.active_connections.filter fun c => ¬ sendOk c).foldl
        (fun acc c => acc.disconnect c) m := rfl
  refine ⟨rfl, ?_, ?_, ?_⟩
  · intro hmem hfail
    have hdead : ws ∈ m.active_connections.filter fun c => ¬ sendOk c :=
      List.mem_filter.mpr ⟨hmem, by simp [hfail]⟩
    constructor
    · have hcf : (m.active_connections.filter fun c => ¬ sendOk c).count ws =
          m.active_connections.count ws :=
        List.count_filter (by simp [hfail])
      have h0 : ((m.broadcast sendOk).2.active_connections).count ws = 0 := by
        rw [hsnd, disconnect_foldl_active_count, hcf]
        omega
      exact List.count_eq_zero.mp h0
    · intro d' hcontra
      rw [hsnd, disconnect_foldl_drivers] at hcontra
      have hmemf := List.mem_filter.mp (lookup_mem hcontra)
      exact (of_decide_eq_true hmemf.2) hdead
  · intro w hw
    unfold ConnectionManager.send_to_driver at hw
    rcases hl : m.driver_connections.lookup d with _ | ws'
    · rw [hl] at hw
      simp at hw
    · rw [hl] at hw
      by_cases hs : sendOk ws' = true
      · simp only [hs, if_true] at hw
        obtain rfl : ws' = w := by simpa using hw
        exact ⟨rfl, hs⟩
      · simp only [Bool.not_eq_true] at hs
        simp [hs] at hw
  · intro h
    unfold ConnectionManager.send_to_driver
    rw [h]

/-- Witness for C9: on `exampleManager` with sends succeeding only on
connection 7, the broadcast delivers to connection 7, drops connection 8
from both the list and the driver index, and a targeted message to the
unconnected driver 5 goes nowhere. -/
theorem C9_witness :
    (exampleManager.broadcast (fun c => c == 7)).1 = [7] ∧
    8 ∉ (exampleManager.broadcast (fun c => c == 7)).2.active_connections ∧
    (exampleManager.broadcast
      (fun c => c == 7)).2.driver_connections.lookup 3 ≠ some 8 ∧
    exampleManager.send_to_driver 5 (fun c => c == 7) = none := by
  have h := C9_fanout exampleManager (fun c => c == 7) 8 5
  exact ⟨h.1.trans (by decide), (h.2.1 (by decide) (by decide)).1,
    (h.2.1 (by decide) (by decide)).2 3, h.2.2.2 (by decide)⟩
